import Mathlib

/-!
Verification development for the PortalSync touch-synchronization and
gesture-classification core (`CollaborationSystem.ts`, `InputController.ts`,
`NetworkManager.ts`, `Constants.ts`).

The TypeScript sources are shallowly embedded: JavaScript `Map`s become
association lists (`aget` / `aset` / `adel` mirror `get` / `set` / `delete`),
`Set<string>` becomes a duplicate-free `List String`, millisecond timestamps
(`Date.now()`) become `Nat` parameters threaded explicitly, the floating-point
relay multiplier (only ever 1.0 plus multiples of 0.5, all exact in binary
floating point) becomes `ℚ`, and Euclidean distance comparisons
`Math.sqrt(d2) ≤ r` are embedded as `d2 ≤ r ^ 2` (equivalent for `0 ≤ r`).
Angles (degrees coming from `Math.atan2 ∈ (-180, 180]`) are embedded as `ℚ`.
-/

namespace PortalSync

/-- Association-list lookup, mirroring JS `Map.get` (first matching key). -/
def aget {α : Type} (k : String) : List (String × α) → Option α
  | [] => none
  | (k2, v) :: rest => if k2 = k then some v else aget k rest

/-- Association-list insert/overwrite, mirroring JS `Map.set`. -/
def aset {α : Type} (k : String) (v : α) : List (String × α) → List (String × α)
  | [] => [(k, v)]
  | (k2, v2) :: rest => if k2 = k then (k2, v) :: rest else (k2, v2) :: aset k v rest

/-- Association-list removal, mirroring JS `Map.delete`. -/
def adel {α : Type} (k : String) : List (String × α) → List (String × α)
  | [] => []
  | (k2, v2) :: rest => if k2 = k then adel k rest else (k2, v2) :: adel k rest

/-- `Constants.ts` `COLLAB_CONFIG.PERFECT_TIMING_THRESHOLD` (ms). -/
def PERFECT_TIMING_THRESHOLD : ℤ := 100

/-- `Constants.ts` `COLLAB_CONFIG.GOOD_TIMING_THRESHOLD` (ms). -/
def GOOD_TIMING_THRESHOLD : ℤ := 300

/-- `Constants.ts` `COLLAB_CONFIG.MAX_SYNC_DELAY` (ms). -/
def MAX_SYNC_DELAY : Nat := 500

/-- `Constants.ts` `COLLAB_CONFIG.PROXIMITY_RADIUS` (m). -/
def PROXIMITY_RADIUS : ℤ := 5

/-- 3D position (`Vector3` in the source, components embedded as `ℤ`). -/
abbrev Vec3 := ℤ × ℤ × ℤ

/-- Squared Euclidean distance; `Vector3.distance` is its square root, so the
source comparison `Vector3.distance a b <= r` is embedded as
`dist2 a b ≤ r ^ 2`. -/
def dist2 (a b : Vec3) : ℤ :=
  (a.1 - b.1) ^ 2 + (a.2.1 - b.2.1) ^ 2 + (a.2.2 - b.2.2) ^ 2

/-- `CollaborationSystem.ts` `CollabChallengeType`. -/
inductive CollabChallengeType where
  | synchronizedTouch
  | energyRelay
  | portalNetwork
  | dualActivation
  | teamPuzzle
deriving DecidableEq

/-- `CollaborationSystem.ts` `RelayTiming`. -/
inductive RelayTiming where
  | perfect
  | good
  | miss
deriving DecidableEq

/-- `CollaborationSystem.ts` `Player` (the fields the sync logic reads). -/
structure Player where
  pos : Vec3
  isTouching : Bool
  touchTimestamp : Option Nat
deriving DecidableEq

/-- `CollaborationSystem.ts` `CollabChallenge`. `participants : Set<string>`
is embedded as a duplicate-free list. -/
structure CollabChallenge where
  id : String
  ctype : CollabChallengeType
  requiredPlayers : Nat
  participants : List String
  isActive : Bool
  isCompleted : Bool
  startTime : Option Nat
  position : Vec3
  proximityRadius : ℤ
deriving DecidableEq

/-- The mutable state of `CollaborationSystem` (haptic/audio side effects and
network broadcasts are external collaborators and are not part of the state). -/
structure CollabState where
  activePlayers : List (String × Player)
  challenges : List CollabChallenge
  playerTouches : List (String × Nat)
  relayChain : List String
  relayMultiplier : ℚ
deriving DecidableEq

/-- `CollaborationSystem.registerPlayer`. -/
def registerPlayer (pid : String) (p : Player) (s : CollabState) : CollabState :=
  { s with activePlayers := aset pid p s.activePlayers }

/-- `CollaborationSystem.unregisterPlayer`: drops the player from the player
map, the touch map, and every challenge's participant set. -/
def unregisterPlayer (pid : String) (s : CollabState) : CollabState :=
  { s with
    activePlayers := adel pid s.activePlayers
    playerTouches := adel pid s.playerTouches
    challenges := s.challenges.map
      (fun c => { c with participants := c.participants.filter (fun q => q ≠ pid) }) }

/-- `CollaborationSystem.createChallenge`. -/
def createChallenge (cid : String) (ctype : CollabChallengeType) (position : Vec3)
    (requiredPlayers : Nat) : CollabChallenge :=
  { id := cid, ctype := ctype, requiredPlayers := requiredPlayers, participants := []
    isActive := false, isCompleted := false, startTime := none
    position := position, proximityRadius := PROXIMITY_RADIUS }

/-- Smallest element of a timestamp list (`Math.min(...timestamps)`;
`0` for the empty spread, which the source never reaches). -/
def listMin : List Nat → Nat
  | [] => 0
  | x :: xs => xs.foldl Nat.min x

/-- Largest element of a timestamp list (`Math.max(...timestamps)`). -/
def listMax : List Nat → Nat
  | [] => 0
  | x :: xs => xs.foldl Nat.max x

/-- `CollaborationSystem.checkTouchSynchronization`: fewer than two ids is
never synchronized; otherwise collect the ids' timestamps and compare the
spread `max − min` against `MAX_SYNC_DELAY`. -/
def checkTouchSynchronization (touches : List (String × Nat))
    (playerIds : List String) : Bool :=
  if playerIds.length < 2 then false
  else
    let timestamps := playerIds.filterMap (fun pid => aget pid touches)
    if timestamps.length < playerIds.length then false
    else decide (listMax timestamps - listMin timestamps ≤ MAX_SYNC_DELAY)

/-- The participants of `c` with an entry in the touch map
(`Array.from(challenge.participants).filter(id => this.playerTouches.has(id))`). -/
def touchingParticipants (touches : List (String × Nat))
    (c : CollabChallenge) : List String :=
  c.participants.filter (fun pid => (aget pid touches).isSome)

/-- The body of `CollaborationSystem.checkSynchronizedTouch` for one
challenge: an active, non-completed synchronized-touch challenge is completed
(`completeChallenge`: `isCompleted := true`, `isActive := false`) when enough
participants are touching and their timestamps are synchronized. -/
def syncTouchStep (touches : List (String × Nat)) (c : CollabChallenge) :
    CollabChallenge :=
  if c.ctype = CollabChallengeType.synchronizedTouch ∧ c.isActive = true ∧
      c.isCompleted = false then
    let touching := touchingParticipants touches c
    if c.requiredPlayers ≤ touching.length ∧
        checkTouchSynchronization touches touching = true then
      { c with isCompleted := true, isActive := false }
    else c
  else c

/-- `CollaborationSystem.checkSynchronizedTouch`: applies `syncTouchStep` to
every challenge. -/
def checkSynchronizedTouch (s : CollabState) : CollabState :=
  { s with challenges := s.challenges.map (syncTouchStep s.playerTouches) }

/-- `CollaborationSystem.onPlayerTouch`. `now` is the value of `Date.now()`
at the moment the handler runs — the handler takes no event timestamp. An
unregistered player id is a no-op. -/
def onPlayerTouch (pid : String) (now : Nat) (s : CollabState) : CollabState :=
  match aget pid s.activePlayers with
  | none => s
  | some p =>
      checkSynchronizedTouch
        { s with
          activePlayers :=
            aset pid { p with isTouching := true, touchTimestamp := some now }
              s.activePlayers
          playerTouches := aset pid now s.playerTouches }

/-- `CollaborationSystem.onPlayerTouchRelease`. -/
def onPlayerTouchRelease (pid : String) (s : CollabState) : CollabState :=
  match aget pid s.activePlayers with
  | none => s
  | some p =>
      { s with
        activePlayers :=
          aset pid { p with isTouching := false, touchTimestamp := none }
            s.activePlayers
        playerTouches := adel pid s.playerTouches }

/-- The relay classification computed inside
`CollaborationSystem.initiateEnergyRelay`: `GOOD` when the chain is empty,
when the last chain member has no touch entry, or when that entry is `0`
(`if (lastRelayTime)` — JS falsiness of the number `0`); otherwise by
`timeDiff = timestamp - lastRelayTime` against the two thresholds. -/
def relayTiming (chain : List String) (touches : List (String × Nat))
    (now : Nat) : RelayTiming :=
  match chain.getLast? with
  | none => RelayTiming.good
  | some last =>
      match aget last touches with
      | none => RelayTiming.good
      | some t =>
          if t = 0 then RelayTiming.good
          else if (now : ℤ) - (t : ℤ) < PERFECT_TIMING_THRESHOLD then
            RelayTiming.perfect
          else if (now : ℤ) - (t : ℤ) < GOOD_TIMING_THRESHOLD then
            RelayTiming.good
          else RelayTiming.miss

/-- `CollaborationSystem.initiateEnergyRelay`: no-op unless both players are
registered; classifies the hand-off, updates the multiplier (`+0.5` on
Perfect, reset to `1.0` on Miss — the chain itself is not cleared), appends
the recipient to the relay chain and stamps the recipient's entry in
`playerTouches` with the local clock value. -/
def initiateEnergyRelay (fromId toId : String) (now : Nat) (s : CollabState) :
    CollabState :=
  match aget fromId s.activePlayers, aget toId s.activePlayers with
  | some _, some _ =>
      let timing := relayTiming s.relayChain s.playerTouches now
      { s with
        relayChain := s.relayChain ++ [toId]
        playerTouches := aset toId now s.playerTouches
        relayMultiplier :=
          match timing with
          | RelayTiming.perfect => s.relayMultiplier + 1 / 2
          | RelayTiming.good => s.relayMultiplier
          | RelayTiming.miss => 1 }
  | _, _ => s

/-- `CollaborationSystem.resetRelayChain`. -/
def resetRelayChain (s : CollabState) : CollabState :=
  { s with relayChain := [], relayMultiplier := 1 }

/-- The body of `CollaborationSystem.updatePlayerProximity` for one
challenge: completed challenges are skipped (`continue`); otherwise the
participant set is rebuilt from scratch from the players within the proximity
radius, and the challenge activates (`activateChallenge`, stamping
`startTime`) when enough players are near and it is not yet active. -/
def proximityStep (players : List (String × Player)) (now : Nat)
    (c : CollabChallenge) : CollabChallenge :=
  if c.isCompleted = true then c
  else
    let parts := (players.filter
      (fun pr => dist2 pr.2.pos c.position ≤ c.proximityRadius ^ 2)).map
        (fun pr => pr.1)
    if c.requiredPlayers ≤ parts.length ∧ c.isActive = false then
      { c with participants := parts, isActive := true, startTime := some now }
    else { c with participants := parts }

/-- `CollaborationSystem.updatePlayerProximity`. -/
def updatePlayerProximity (now : Nat) (s : CollabState) : CollabState :=
  { s with challenges := s.challenges.map (proximityStep s.activePlayers now) }

/-! ### Gesture recognition (`InputController.ts`, `Constants.ts`) -/

/-- `Constants.ts` `GESTURE_THRESHOLDS.TAP_DURATION` (ms). -/
def TAP_DURATION : Nat := 200

/-- `Constants.ts` `GESTURE_THRESHOLDS.LONG_PRESS_DURATION` (ms). -/
def LONG_PRESS_DURATION : Nat := 500

/-- `Constants.ts` `GESTURE_THRESHOLDS.DOUBLE_TAP_INTERVAL` (ms). -/
def DOUBLE_TAP_INTERVAL : Nat := 300

/-- `Constants.ts` `GESTURE_THRESHOLDS.ROTATION_THRESHOLD` (degrees). -/
def ROTATION_THRESHOLD : ℚ := 5

/-- 2D screen position (`Vector2`, components embedded as `ℤ`). -/
abbrev Vec2 := ℤ × ℤ

/-- Squared 2D distance; the source comparison `Vector2.distance a b < r`
is embedded as `dist2v2 a b < r ^ 2`. -/
def dist2v2 (a b : Vec2) : ℤ := (a.1 - b.1) ^ 2 + (a.2 - b.2) ^ 2

/-- The discrete gestures of `InputController.recognizeDiscreteGestures`. -/
inductive Gesture where
  | tap (pos : Vec2)
  | doubleTap (pos : Vec2)
  | longPress (pos : Vec2)
deriving DecidableEq

/-- The `InputController` fields driving tap/double-tap resolution
(`lastTapTime`, `lastTapPosition`, `tapCount`). -/
structure TapState where
  lastTapTime : Nat
  lastTapPos : Option Vec2
  tapCount : Nat
deriving DecidableEq

/-- Initial tap state (`lastTapTime = 0`, no last position, `tapCount = 0`). -/
def initTapState : TapState := { lastTapTime := 0, lastTapPos := none, tapCount := 0 }

/-- `InputController.recognizeTap` at local time `now` (`Date.now()`).
Returns the new state, immediately emitted gestures, and the deferred-Tap
timer (`setTimeout(..., DOUBLE_TAP_INTERVAL)`) scheduled by the call, if any:
the pair is its fire time `now + DOUBLE_TAP_INTERVAL` and the touch position
captured by the closure. -/
def recognizeTap (st : TapState) (pos : Vec2) (now : Nat) :
    TapState × List Gesture × Option (Nat × Vec2) :=
  match st.lastTapPos with
  | some lp =>
      if dist2v2 pos lp < 30 ^ 2 ∧ now - st.lastTapTime < DOUBLE_TAP_INTERVAL then
        -- double-tap branch: `this.tapCount++`, emit on reaching 2
        if st.tapCount + 1 = 2 then
          ({ lastTapTime := now, lastTapPos := some pos, tapCount := 0 },
           [Gesture.doubleTap pos], none)
        else
          ({ lastTapTime := now, lastTapPos := some pos, tapCount := st.tapCount + 1 },
           [], none)
      else
        ({ lastTapTime := now, lastTapPos := some pos, tapCount := 1 },
         [], some (now + DOUBLE_TAP_INTERVAL, pos))
  | none =>
      ({ lastTapTime := now, lastTapPos := some pos, tapCount := 1 },
       [], some (now + DOUBLE_TAP_INTERVAL, pos))

/-- The deferred callback scheduled by `recognizeTap`: when it fires it emits
a single Tap iff `tapCount` is still `1`. -/
def fireTapTimer (st : TapState) (pos : Vec2) : List Gesture :=
  if st.tapCount = 1 then [Gesture.tap pos] else []

/-- The touch-point fields read by `recognizeDiscreteGestures`
(final `position`, `startPosition`, and `duration` computed at touch end). -/
structure TouchEnd where
  position : Vec2
  startPosition : Vec2
  duration : Nat
deriving DecidableEq

/-- `InputController.recognizeDiscreteGestures` (invoked once per contact at
touch end): a short (`duration < TAP_DURATION`), small-displacement
(`distance < 10`) contact goes through tap recognition; a long
(`duration > LONG_PRESS_DURATION`) contact emits LongPress. -/
def recognizeDiscreteGestures (st : TapState) (tp : TouchEnd) (now : Nat) :
    TapState × List Gesture × Option (Nat × Vec2) :=
  let step :=
    if tp.duration < TAP_DURATION ∧ dist2v2 tp.position tp.startPosition < 10 ^ 2 then
      recognizeTap st tp.position now
    else (st, [], none)
  (step.1, step.2.1 ++
    (if LONG_PRESS_DURATION < tp.duration then [Gesture.longPress tp.position] else []),
   step.2.2)

/-- Number of Tap or DoubleTap events in an emission list. -/
def tapClassCount (gs : List Gesture) : Nat :=
  (gs.filter (fun g => match g with
    | Gesture.tap _ => true
    | Gesture.doubleTap _ => true
    | Gesture.longPress _ => false)).length

/-- Number of LongPress events in an emission list. -/
def longPressCount (gs : List Gesture) : Nat :=
  (gs.filter (fun g => match g with
    | Gesture.longPress _ => true
    | _ => false)).length

/-- The two-tap timeline of the spec's double-tap scenario: a qualifying tap
ends at `t1`, a second qualifying tap at the same position ends at `t2`, and
the deferred timer scheduled by the first tap (if any) fires afterwards at
`t1 + DOUBLE_TAP_INTERVAL` (the ordering is faithful when
`t2 < t1 + DOUBLE_TAP_INTERVAL`, which the theorems assume). Returns every
gesture emitted over the whole timeline. -/
def twoTapRun (t1 t2 d1 d2 : Nat) (p : Vec2) : List Gesture :=
  let s1 := recognizeDiscreteGestures initTapState
    { position := p, startPosition := p, duration := d1 } t1
  let s2 := recognizeDiscreteGestures s1.1
    { position := p, startPosition := p, duration := d2 } t2
  let late :=
    match s1.2.2 with
    | some tm => fireTapTimer s2.1 tm.2
    | none => []
  s1.2.1 ++ s2.2.1 ++
    (match s2.2.2 with
     | some tm2 => fireTapTimer s2.1 tm2.2
     | none => []) ++ late

/-- The single-tap timeline: one qualifying tap ends at `t1`, no further
touch arrives, and the deferred timer (if any) fires at
`t1 + DOUBLE_TAP_INTERVAL`. Returns (immediate gestures, timer gestures). -/
def singleTapRun (t1 d1 : Nat) (p : Vec2) : List Gesture × List Gesture :=
  let s1 := recognizeDiscreteGestures initTapState
    { position := p, startPosition := p, duration := d1 } t1
  (s1.2.1,
   match s1.2.2 with
   | some tm => fireTapTimer s1.1 tm.2
   | none => [])

/-! ### Rotation gesture (`InputController.recognizeRotationGesture`) -/

/-- The normalization in `recognizeRotationGesture`, applied to
`angleDelta = currentAngle - initialRotationAngle`: two sequential one-shot
corrections, `if (angleDelta > 180) angleDelta -= 360` then
`if (angleDelta < -180) angleDelta += 360`. -/
def normalizeAngleDelta (d : ℚ) : ℚ :=
  let d1 := if 180 < d then d - 360 else d
  if d1 < -180 then d1 + 360 else d1

/-- `recognizeRotationGesture` reduced to its angle computation: given the
baseline angle and the current angle (both produced by `calculateAngle`,
i.e. `Math.atan2(dy, dx) * 180 / π ∈ (-180, 180]`), returns the `rotation`
payload of the emitted Rotate event, or `none` when
`|angleDelta| ≤ ROTATION_THRESHOLD` and nothing is emitted. -/
def rotationGestureDelta (baseline current : ℚ) : Option ℚ :=
  let d := normalizeAngleDelta (current - baseline)
  if ROTATION_THRESHOLD < |d| then some d else none

/-! ### Gesture callback dispatch (`InputController.emitGesture` / `on`) -/

/-- A registered gesture callback, abstracted to its identity and to whether
invoking it throws. -/
structure Cb where
  name : String
  throws : Bool
deriving DecidableEq

/-- `InputController.on(gestureType, callback)`: appends the callback to the
per-type list (creating it when absent). -/
def onRegister (m : List (String × List Cb)) (gestureType : String) (c : Cb) :
    List (String × List Cb) :=
  match aget gestureType m with
  | none => aset gestureType [c] m
  | some l => aset gestureType (l ++ [c]) m

/-- The `callbacks.forEach(callback => callback(event))` loop of
`InputController.emitGesture`: callbacks run in list order; a thrown
exception propagates out of `forEach`, so iteration stops at the first
throwing callback. Returns (names invoked in order, whether a throw escaped). -/
def emitGestureRun : List Cb → List String × Bool
  | [] => ([], false)
  | c :: rest =>
      if c.throws then ([c.name], true)
      else
        let r := emitGestureRun rest
        (c.name :: r.1, r.2)

/-! ### Network event bus (`NetworkManager.ts`) -/

/-- `NetworkManager.ts` `NetworkEvent` (the envelope identity fields; the
payload is opaque to the dedupe question). -/
structure NetworkEvent where
  etype : String
  senderId : String
  timestamp : Nat
deriving DecidableEq

/-- `NetworkManager.receiveEvent`: drops envelopes whose sender is the local
player, otherwise appends to `pendingEvents` (each pending event is later
dispatched once to every registered handler). There is no sender+timestamp
deduplication. -/
def receiveEvent (localId : String) (pending : List NetworkEvent)
    (e : NetworkEvent) : List NetworkEvent :=
  if e.senderId = localId then pending else pending ++ [e]

/-! ### Completion predicates for the synchronized-touch comparison -/

/-- The completion condition the code actually implements for one
active, non-completed synchronized-touch challenge: enough touching
participants, at least two of them, and spread at most `MAX_SYNC_DELAY`. -/
def codeSyncCompletes (touches : List (String × Nat)) (c : CollabChallenge) : Bool :=
  decide (c.requiredPlayers ≤ (touchingParticipants touches c).length) &&
  decide (2 ≤ (touchingParticipants touches c).length) &&
  decide
    (listMax ((touchingParticipants touches c).filterMap (fun q => aget q touches)) -
      listMin ((touchingParticipants touches c).filterMap (fun q => aget q touches)) ≤
      MAX_SYNC_DELAY)

/-- The completion condition asserted by the specification (its exact words:
filtered count `≥ requiredPlayers` and `max − min ≤ maxSyncDelay`, with no
minimum of two touching players). Kept separate from the code-derived
definitions so the two can be compared. -/
def specSyncCompletes (touches : List (String × Nat)) (c : CollabChallenge) : Bool :=
  decide (c.requiredPlayers ≤ (touchingParticipants touches c).length) &&
  decide
    (listMax ((touchingParticipants touches c).filterMap (fun q => aget q touches)) -
      listMin ((touchingParticipants touches c).filterMap (fun q => aget q touches)) ≤
      MAX_SYNC_DELAY)

/-! ### Association-list and synchronization lemmas -/

theorem aget_aset_self {α : Type} (k : String) (v : α) (m : List (String × α)) :
    aget k (aset k v m) = some v := by
  induction m with
  | nil => simp [aget, aset]
  | cons h t ih =>
      by_cases hk : h.1 = k
      · simp [aget, aset, hk]
      · simp [aget, aset, hk, ih]

theorem aget_adel_self {α : Type} (k : String) (m : List (String × α)) :
    aget k (adel k m) = none := by
  induction m with
  | nil => simp [adel, aget]
  | cons h t ih =>
      by_cases hk : h.1 = k
      · simp [adel, hk, ih]
      · simp [adel, aget, hk, ih]

theorem length_filterMap_aget (touches : List (String × Nat)) :
    ∀ l : List String, (∀ x ∈ l, (aget x touches).isSome = true) →
      (l.filterMap (fun pid => aget pid touches)).length = l.length := by
  intro l
  induction l with
  | nil => intro _; simp
  | cons x xs ih =>
      intro hl
      obtain ⟨v, hv⟩ := Option.isSome_iff_exists.mp (hl x (List.mem_cons_self x xs))
      simp [List.filterMap_cons, hv, ih (fun y hy => hl y (List.mem_cons_of_mem x hy))]

theorem touchingParticipants_isSome (touches : List (String × Nat))
    (c : CollabChallenge) :
    ∀ x ∈ touchingParticipants touches c, (aget x touches).isSome = true := by
  intro x hx
  exact (List.mem_filter.mp hx).2

theorem checkTouchSynchronization_iff (touches : List (String × Nat))
    (ids : List String) (hall : ∀ x ∈ ids, (aget x touches).isSome = true) :
    checkTouchSynchronization touches ids = true ↔
      2 ≤ ids.length ∧
      listMax (ids.filterMap (fun pid => aget pid touches)) -
        listMin (ids.filterMap (fun pid => aget pid touches)) ≤ MAX_SYNC_DELAY := by
  have hlen := length_filterMap_aget touches ids hall
  unfold checkTouchSynchronization
  by_cases h : ids.length < 2
  · simp [h]
    try omega
  · simp [h, hlen]
    try omega

theorem syncTouchStep_isCompleted_iff (touches : List (String × Nat))
    (c : CollabChallenge) (ht : c.ctype = CollabChallengeType.synchronizedTouch)
    (ha : c.isActive = true) (hco : c.isCompleted = false) :
    ((syncTouchStep touches c).isCompleted = true) ↔
      codeSyncCompletes touches c = true := by
  have hiff := checkTouchSynchronization_iff touches (touchingParticipants touches c)
    (touchingParticipants_isSome touches c)
  unfold syncTouchStep
  rw [if_pos ⟨ht, ha, hco⟩]
  by_cases h2 : c.requiredPlayers ≤ (touchingParticipants touches c).length ∧
      checkTouchSynchronization touches (touchingParticipants touches c) = true
  · rw [if_pos h2]
    obtain ⟨hreq, hchk⟩ := h2
    obtain ⟨h2le, hskew⟩ := hiff.mp hchk
    simp [codeSyncCompletes, hreq, h2le, hskew]
  · rw [if_neg h2]
    simp only [hco]
    constructor
    · intro hfalse; exact absurd hfalse (by simp)
    · intro hcond
      exfalso
      apply h2
      simp only [codeSyncCompletes, Bool.and_eq_true, decide_eq_true_eq] at hcond
      exact ⟨hcond.1.1, hiff.mpr ⟨hcond.1.2, hcond.2⟩⟩

/-! ### Claim C1 — synchronized-touch completion -/

/-- Claim C1, amended. A registered player's touch event stamps the toucher
and re-evaluates every challenge; an Active, non-completed synchronized-touch
challenge is completed exactly when the number of its participants with a
touch timestamp is at least `requiredPlayers` AND at least two, and the
spread `max − min` of those timestamps is at most `MAX_SYNC_DELAY` (500 ms).
(The claim as frozen omits the at-least-two requirement enforced by
`checkTouchSynchronization`; with `requiredPlayers = 2` the t=0/t=400 and
t=0/t=600 examples are unaffected.) -/
theorem claim1_sync_completion (s : CollabState) (pid : String) (now : Nat)
    (p : Player) (hreg : aget pid s.activePlayers = some p) :
    (onPlayerTouch pid now s).challenges =
      s.challenges.map (syncTouchStep (aset pid now s.playerTouches)) ∧
    ∀ c ∈ s.challenges,
      c.ctype = CollabChallengeType.synchronizedTouch → c.isActive = true →
      c.isCompleted = false →
      ((syncTouchStep (aset pid now s.playerTouches) c).isCompleted = true ↔
        codeSyncCompletes (aset pid now s.playerTouches) c = true) := by
  constructor
  · simp [onPlayerTouch, hreg, checkSynchronizedTouch]
  · intro c _ ht ha hco
    exact syncTouchStep_isCompleted_iff (aset pid now s.playerTouches) c ht ha hco

/-- Claim C1 counterexample. A synchronized-touch challenge created with
`requiredPlayers = 1`, activated through `updatePlayerProximity` with the one
registered player in radius: after that player touches, the specification's
completion condition (count `≥ requiredPlayers`, spread `≤ maxSyncDelay`)
holds, yet the code does not complete the challenge, because
`checkTouchSynchronization` rejects fewer than two touching players. -/
theorem claim1_counterexample :
    (onPlayerTouch "a" 100
        (updatePlayerProximity 50
          { activePlayers :=
              [("a", { pos := (0, 0, 0), isTouching := false, touchTimestamp := none })]
            challenges :=
              [createChallenge "X" CollabChallengeType.synchronizedTouch (0, 0, 0) 1]
            playerTouches := [], relayChain := [],
            relayMultiplier := 1 })).challenges.map
        (fun c => (c.isCompleted, specSyncCompletes (aset "a" 100 []) c)) =
      [(false, true)] := by
  decide

/-- Claim C1 witness: the amended theorem applied to the spec's own example —
`requiredPlayers = 2`, touches at t=0 and t=400 — completes the challenge. -/
theorem claim1_witness :
    (syncTouchStep (aset "b" 400 (aset "a" 0 []))
        { id := "X", ctype := CollabChallengeType.synchronizedTouch,
          requiredPlayers := 2, participants := ["a", "b"], isActive := true,
          isCompleted := false, startTime := none, position := (0, 0, 0),
          proximityRadius := 5 }).isCompleted = true :=
  ((claim1_sync_completion
      { activePlayers :=
          [("a", { pos := (0, 0, 0), isTouching := false, touchTimestamp := none }),
           ("b", { pos := (0, 0, 0), isTouching := false, touchTimestamp := none })]
        challenges :=
          [{ id := "X", ctype := CollabChallengeType.synchronizedTouch,
             requiredPlayers := 2, participants := ["a", "b"], isActive := true,
             isCompleted := false, startTime := none, position := (0, 0, 0),
             proximityRadius := 5 }]
        playerTouches := aset "a" 0 [], relayChain := [], relayMultiplier := 1 }
      "b" 400
      { pos := (0, 0, 0), isTouching := false, touchTimestamp := none }
      (by decide)).2
    _ (by decide) rfl rfl rfl).mpr (by decide)

/-! ### Claim C2 — relay hand-off classification -/

/-- Claim C2, amended. A hand-off between two registered players is
classified against the touch-map entry of the last player in the chain:
`Δ < PERFECT_TIMING_THRESHOLD` (100 ms) ⇒ Perfect (multiplier `+= 0.5`),
`Δ < GOOD_TIMING_THRESHOLD` (300 ms) ⇒ Good (multiplier unchanged),
otherwise Miss — which resets the multiplier to 1.0 but does NOT clear the
relay chain (the recipient is still appended; only `resetRelayChain` clears
it). The first hand-off in an empty chain is always Good, and the multiplier
stays `≥ 1.0`. (The claim as frozen says a Miss clears the chain; the code
only resets the multiplier.) -/
theorem claim2_relay_classification (s : CollabState) (fromId toId : String)
    (now : Nat) (pf pt : Player)
    (hf : aget fromId s.activePlayers = some pf)
    (ht : aget toId s.activePlayers = some pt) :
    (initiateEnergyRelay fromId toId now s).relayChain = s.relayChain ++ [toId] ∧
    (s.relayChain = [] → relayTiming s.relayChain s.playerTouches now =
      RelayTiming.good) ∧
    (∀ last t, s.relayChain.getLast? = some last →
      aget last s.playerTouches = some t → t ≠ 0 →
      relayTiming s.relayChain s.playerTouches now =
        (if (now : ℤ) - (t : ℤ) < PERFECT_TIMING_THRESHOLD then RelayTiming.perfect
         else if (now : ℤ) - (t : ℤ) < GOOD_TIMING_THRESHOLD then RelayTiming.good
         else RelayTiming.miss)) ∧
    (relayTiming s.relayChain s.playerTouches now = RelayTiming.perfect →
      (initiateEnergyRelay fromId toId now s).relayMultiplier =
        s.relayMultiplier + 1 / 2) ∧
    (relayTiming s.relayChain s.playerTouches now = RelayTiming.good →
      (initiateEnergyRelay fromId toId now s).relayMultiplier = s.relayMultiplier) ∧
    (relayTiming s.relayChain s.playerTouches now = RelayTiming.miss →
      (initiateEnergyRelay fromId toId now s).relayMultiplier = 1 ∧
      (initiateEnergyRelay fromId toId now s).relayChain ≠ []) ∧
    (1 ≤ s.relayMultiplier →
      1 ≤ (initiateEnergyRelay fromId toId now s).relayMultiplier) := by
  refine ⟨by simp [initiateEnergyRelay, hf, ht], ?_, ?_, ?_, ?_, ?_, ?_⟩
  · intro hempty
    simp [relayTiming, hempty]
  · intro last t hlast hget hnz
    simp [relayTiming, hlast, hget, hnz]
  · intro htg
    simp [initiateEnergyRelay, hf, ht, htg]
  · intro htg
    simp [initiateEnergyRelay, hf, ht, htg]
  · intro htg
    simp [initiateEnergyRelay, hf, ht, htg]
  · intro hone
    rcases htg : relayTiming s.relayChain s.playerTouches now with _ | _ | _ <;>
      simp [initiateEnergyRelay, hf, ht, htg] <;> linarith

/-- Claim C2 counterexample. Starting from a fresh state, a Good hand-off
`a → b` at t=100 puts `b` on the chain; the hand-off `b → c` at t=1000 has
`Δ = 900 ≥ 300` and classifies Miss — yet the relay chain afterwards is
`["b", "c"]`, not cleared as the claim states (only the multiplier resets). -/
theorem claim2_counterexample :
    relayTiming
        (initiateEnergyRelay "a" "b" 100
          { activePlayers :=
              [("a", { pos := (0, 0, 0), isTouching := false, touchTimestamp := none }),
               ("b", { pos := (0, 0, 0), isTouching := false, touchTimestamp := none }),
               ("c", { pos := (0, 0, 0), isTouching := false, touchTimestamp := none })]
            challenges := [], playerTouches := [], relayChain := [],
            relayMultiplier := 1 }).relayChain
        (initiateEnergyRelay "a" "b" 100
          { activePlayers :=
              [("a", { pos := (0, 0, 0), isTouching := false, touchTimestamp := none }),
               ("b", { pos := (0, 0, 0), isTouching := false, touchTimestamp := none }),
               ("c", { pos := (0, 0, 0), isTouching := false, touchTimestamp := none })]
            challenges := [], playerTouches := [], relayChain := [],
            relayMultiplier := 1 }).playerTouches 1000 = RelayTiming.miss ∧
    (initiateEnergyRelay "b" "c" 1000
        (initiateEnergyRelay "a" "b" 100
          { activePlayers :=
              [("a", { pos := (0, 0, 0), isTouching := false, touchTimestamp := none }),
               ("b", { pos := (0, 0, 0), isTouching := false, touchTimestamp := none }),
               ("c", { pos := (0, 0, 0), isTouching := false, touchTimestamp := none })]
            challenges := [], playerTouches := [], relayChain := [],
            relayMultiplier := 1 })).relayChain = ["b", "c"] := by
  exact ⟨by decide, by decide⟩

/-- Claim C2 witness: the amended theorem applied to the Miss hand-off of the
counterexample run — the multiplier resets to 1.0 and the chain is nonempty. -/
theorem claim2_witness :
    (initiateEnergyRelay "b" "c" 1000
        { activePlayers :=
            [("a", { pos := (0, 0, 0), isTouching := false, touchTimestamp := none }),
             ("b", { pos := (0, 0, 0), isTouching := false, touchTimestamp := none }),
             ("c", { pos := (0, 0, 0), isTouching := false, touchTimestamp := none })]
          challenges := [], playerTouches := [("b", 100)], relayChain := ["b"],
          relayMultiplier := 1 }).relayMultiplier = 1 ∧
    (initiateEnergyRelay "b" "c" 1000
        { activePlayers :=
            [("a", { pos := (0, 0, 0), isTouching := false, touchTimestamp := none }),
             ("b", { pos := (0, 0, 0), isTouching := false, touchTimestamp := none }),
             ("c", { pos := (0, 0, 0), isTouching := false, touchTimestamp := none })]
          challenges := [], playerTouches := [("b", 100)], relayChain := ["b"],
          relayMultiplier := 1 }).relayChain ≠ [] :=
  (claim2_relay_classification _ "b" "c" 1000
      { pos := (0, 0, 0), isTouching := false, touchTimestamp := none }
      { pos := (0, 0, 0), isTouching := false, touchTimestamp := none }
      (by decide) (by decide)).2.2.2.2.2.1 (by decide)

/-! ### Claim C3 — timestamp provenance of synchronization decisions -/

/-- Claim C3, amended. The synchronized-touch skew and the relay Δ are
computed from timestamps assigned by the LOCAL clock (`Date.now()`) at the
moment the handler runs — the `now` argument of the embedding — not from any
timestamp embedded in an originating event: `onPlayerTouch` accepts no event
timestamp, stores the local clock value in the touch map, and the completion
decision reads exactly that map; `initiateEnergyRelay` likewise stamps the
recipient with the local clock value and derives the multiplier update from
`relayTiming` evaluated at that local clock value. (Event-embedded
timestamps are broadcast by `broadcastTouchEvent` but never consumed.) -/
theorem claim3_local_receipt_clock (s : CollabState) (pid fromId toId : String)
    (now : Nat) (p pf pt : Player)
    (hreg : aget pid s.activePlayers = some p)
    (hf : aget fromId s.activePlayers = some pf)
    (ht : aget toId s.activePlayers = some pt) :
    aget pid (onPlayerTouch pid now s).playerTouches = some now ∧
    (onPlayerTouch pid now s).challenges =
      s.challenges.map (syncTouchStep (aset pid now s.playerTouches)) ∧
    aget toId (initiateEnergyRelay fromId toId now s).playerTouches = some now ∧
    (initiateEnergyRelay fromId toId now s).relayMultiplier =
      (match relayTiming s.relayChain s.playerTouches now with
       | RelayTiming.perfect => s.relayMultiplier + 1 / 2
       | RelayTiming.good => s.relayMultiplier
       | RelayTiming.miss => 1) := by
  refine ⟨?_, ?_, ?_, ?_⟩
  · simp [onPlayerTouch, hreg, checkSynchronizedTouch, aget_aset_self]
  · simp [onPlayerTouch, hreg, checkSynchronizedTouch]
  · simp [initiateEnergyRelay, hf, ht, aget_aset_self]
  · simp [initiateEnergyRelay, hf, ht]

/-- Claim C3 counterexample. The same two originating touch events (player
`a` touches, then player `b` touches; required players 2) are processed with
two different local receipt clocks for `b`'s event: received at local time
400 the challenge completes, received at local time 600 it does not.  The
completion decision therefore depends on the local clock at receipt time,
refuting the claim that it is computed only from event-embedded timestamps
(the handlers take none). -/
theorem claim3_counterexample :
    (onPlayerTouch "b" 400
        (onPlayerTouch "a" 0
          { activePlayers :=
              [("a", { pos := (0, 0, 0), isTouching := false, touchTimestamp := none }),
               ("b", { pos := (0, 0, 0), isTouching := false, touchTimestamp := none })]
            challenges :=
              [{ id := "X", ctype := CollabChallengeType.synchronizedTouch,
                 requiredPlayers := 2, participants := ["a", "b"], isActive := true,
                 isCompleted := false, startTime := none, position := (0, 0, 0),
                 proximityRadius := 5 }]
            playerTouches := [], relayChain := [],
            relayMultiplier := 1 })).challenges.map (fun c => c.isCompleted) =
      [true] ∧
    (onPlayerTouch "b" 600
        (onPlayerTouch "a" 0
          { activePlayers :=
              [("a", { pos := (0, 0, 0), isTouching := false, touchTimestamp := none }),
               ("b", { pos := (0, 0, 0), isTouching := false, touchTimestamp := none })]
            challenges :=
              [{ id := "X", ctype := CollabChallengeType.synchronizedTouch,
                 requiredPlayers := 2, participants := ["a", "b"], isActive := true,
                 isCompleted := false, startTime := none, position := (0, 0, 0),
                 proximityRadius := 5 }]
            playerTouches := [], relayChain := [],
            relayMultiplier := 1 })).challenges.map (fun c => c.isCompleted) =
      [false] := by
  exact ⟨by decide, by decide⟩

/-- Claim C3 witness: the amended theorem applied to a concrete state — the
stored touch stamp is the local clock argument. -/
theorem claim3_witness :
    aget "a"
        (onPlayerTouch "a" 12345
          { activePlayers :=
              [("a", { pos := (0, 0, 0), isTouching := false, touchTimestamp := none })]
            challenges := [], playerTouches := [], relayChain := [],
            relayMultiplier := 1 }).playerTouches = some 12345 :=
  (claim3_local_receipt_clock _ "a" "a" "a" 12345
      { pos := (0, 0, 0), isTouching := false, touchTimestamp := none }
      { pos := (0, 0, 0), isTouching := false, touchTimestamp := none }
      { pos := (0, 0, 0), isTouching := false, touchTimestamp := none }
      (by decide) (by decide) (by decide)).1

/-! ### Claim C4 — tap / double-tap resolution -/

/-- Claim C4, confirmed. Two qualifying taps (duration below
`TAP_DURATION`, no displacement) at the same position, the second ending
within `DOUBLE_TAP_INTERVAL` (300 ms) of the first, produce over the whole
timeline (both touch ends plus the deferred timer) exactly one DoubleTap and
zero Taps; a single qualifying tap with no follow-up emits nothing
immediately, schedules the deferred emission at `t1 + DOUBLE_TAP_INTERVAL`,
and that timer emits exactly one Tap when it fires after the interval. -/
theorem claim4_tap_doubletap (t1 t2 d1 d2 : Nat) (p : Vec2)
    (hd1 : d1 < TAP_DURATION) (hd2 : d2 < TAP_DURATION)
    (h12 : t1 ≤ t2) (hwin : t2 < t1 + DOUBLE_TAP_INTERVAL) :
    twoTapRun t1 t2 d1 d2 p = [Gesture.doubleTap p] ∧
    (singleTapRun t1 d1 p).1 = [] ∧
    (recognizeDiscreteGestures initTapState
        { position := p, startPosition := p, duration := d1 } t1).2.2 =
      some (t1 + DOUBLE_TAP_INTERVAL, p) ∧
    (singleTapRun t1 d1 p).2 = [Gesture.tap p] := by
  have hpp : dist2v2 p p = 0 := by simp [dist2v2]
  have hlp1 : ¬ LONG_PRESS_DURATION < d1 := by
    unfold TAP_DURATION at hd1
    unfold LONG_PRESS_DURATION
    omega
  have hlp2 : ¬ LONG_PRESS_DURATION < d2 := by
    unfold TAP_DURATION at hd2
    unfold LONG_PRESS_DURATION
    omega
  have hsub : t2 - t1 < DOUBLE_TAP_INTERVAL := by
    unfold DOUBLE_TAP_INTERVAL at hwin ⊢
    omega
  refine ⟨?_, ?_, ?_, ?_⟩
  · simp [twoTapRun, recognizeDiscreteGestures, recognizeTap, initTapState,
      fireTapTimer, hd1, hd2, hpp, hlp1, hlp2, hsub]
  · simp [singleTapRun, recognizeDiscreteGestures, recognizeTap, initTapState,
      hd1, hpp, hlp1]
  · simp [recognizeDiscreteGestures, recognizeTap, initTapState, hd1, hpp]
  · simp [singleTapRun, recognizeDiscreteGestures, recognizeTap, initTapState,
      fireTapTimer, hd1, hpp, hlp1]

/-- Claim C4 witness: the theorem applied at taps ending at t=1000 and
t=1100 with 50 ms contacts. -/
theorem claim4_witness :
    twoTapRun 1000 1100 50 50 (0, 0) = [Gesture.doubleTap (0, 0)] ∧
    (singleTapRun 1000 50 (0, 0)).2 = [Gesture.tap (0, 0)] :=
  ⟨(claim4_tap_doubletap 1000 1100 50 50 (0, 0) (by decide) (by decide)
      (by decide) (by decide)).1,
   (claim4_tap_doubletap 1000 1100 50 50 (0, 0) (by decide) (by decide)
      (by decide) (by decide)).2.2.2⟩

/-! ### Claim C5 — at most one discrete gesture class per contact -/

/-- Claim C5, confirmed. One `recognizeDiscreteGestures` invocation (the only
discrete-classification call a contact ever gets, at its touch end) emits at
most one Tap-or-DoubleTap outcome — counting an immediately emitted gesture
and a scheduled deferred-Tap timer, which itself emits at most one Tap and
never a LongPress — at most one LongPress, and never both classes: the tap
path requires `duration < TAP_DURATION` (200 ms) and the long-press path
requires `duration > LONG_PRESS_DURATION` (500 ms), which are mutually
exclusive. -/
theorem claim5_discrete_exclusive (st : TapState) (tp : TouchEnd) (now : Nat) :
    tapClassCount (recognizeDiscreteGestures st tp now).2.1 +
        (if (recognizeDiscreteGestures st tp now).2.2.isSome then 1 else 0) ≤ 1 ∧
    longPressCount (recognizeDiscreteGestures st tp now).2.1 ≤ 1 ∧
    (1 ≤ tapClassCount (recognizeDiscreteGestures st tp now).2.1 +
        (if (recognizeDiscreteGestures st tp now).2.2.isSome then 1 else 0) →
      longPressCount (recognizeDiscreteGestures st tp now).2.1 = 0) ∧
    (∀ st2 pos, tapClassCount (fireTapTimer st2 pos) ≤ 1 ∧
      longPressCount (fireTapTimer st2 pos) = 0) := by
  have hfire : ∀ st2 pos, tapClassCount (fireTapTimer st2 pos) ≤ 1 ∧
      longPressCount (fireTapTimer st2 pos) = 0 := by
    intro st2 pos
    unfold fireTapTimer
    by_cases h : st2.tapCount = 1 <;>
      simp [h, tapClassCount, longPressCount]
  refine ⟨?_, ?_, ?_, hfire⟩
  all_goals
    unfold recognizeDiscreteGestures
    by_cases htap : tp.duration < TAP_DURATION ∧
        dist2v2 tp.position tp.startPosition < 10 ^ 2
    · have hnl : ¬ LONG_PRESS_DURATION < tp.duration := by
        unfold TAP_DURATION at htap
        unfold LONG_PRESS_DURATION
        omega
      simp only [if_pos htap, if_neg hnl]
      unfold recognizeTap
      rcases st.lastTapPos with _ | lp <;>
        simp [tapClassCount, longPressCount] <;>
        split_ifs <;>
        simp_all [tapClassCount, longPressCount]
    · simp only [if_neg htap]
      by_cases hl : LONG_PRESS_DURATION < tp.duration <;>
        simp [hl, tapClassCount, longPressCount]

/-- Claim C5 witness: the theorem applied to a state where a second tap
completes a double-tap — one DoubleTap, no timer, and (via the
mutual-exclusion conjunct) no LongPress. -/
theorem claim5_witness :
    longPressCount
        (recognizeDiscreteGestures { lastTapTime := 0, lastTapPos := some (0, 0), tapCount := 1 }
          { position := (0, 0), startPosition := (0, 0), duration := 50 } 100).2.1 = 0 :=
  (claim5_discrete_exclusive
      { lastTapTime := 0, lastTapPos := some (0, 0), tapCount := 1 }
      { position := (0, 0), startPosition := (0, 0), duration := 50 } 100).2.2.1
    (by decide)

/-! ### Claim C6 — completed challenges and player removal -/

/-- Claim C6, confirmed. A Completed challenge is terminal for the challenge
logic: both the proximity tick and the touch-driven completion check leave it
untouched, so no participant changes occur through those paths — player
removal, which the claim itself describes, being the removal path.
`unregisterPlayer` deletes the player from the player map and touch map and
from every challenge's participant set while leaving every other challenge
field unchanged, and subsequent proximity/touch/relay calls referencing the
removed id are no-ops. -/
theorem claim6_terminal_and_removal (s : CollabState) (pid other : String)
    (now : Nat) :
    (∀ c ∈ s.challenges, c.isCompleted = true →
      proximityStep s.activePlayers now c = c ∧
      syncTouchStep s.playerTouches c = c) ∧
    aget pid (unregisterPlayer pid s).activePlayers = none ∧
    aget pid (unregisterPlayer pid s).playerTouches = none ∧
    (∀ c2 ∈ (unregisterPlayer pid s).challenges, pid ∉ c2.participants) ∧
    (∀ c ∈ s.challenges, ∃ c2 ∈ (unregisterPlayer pid s).challenges,
      c2.participants = c.participants.filter (fun q => q ≠ pid) ∧
      c2.id = c.id ∧ c2.ctype = c.ctype ∧
      c2.requiredPlayers = c.requiredPlayers ∧ c2.isActive = c.isActive ∧
      c2.isCompleted = c.isCompleted ∧ c2.startTime = c.startTime ∧
      c2.position = c.position ∧ c2.proximityRadius = c.proximityRadius) ∧
    onPlayerTouch pid now (unregisterPlayer pid s) = unregisterPlayer pid s ∧
    onPlayerTouchRelease pid (unregisterPlayer pid s) = unregisterPlayer pid s ∧
    initiateEnergyRelay pid other now (unregisterPlayer pid s) =
      unregisterPlayer pid s ∧
    initiateEnergyRelay other pid now (unregisterPlayer pid s) =
      unregisterPlayer pid s := by
  have hnone : aget pid (unregisterPlayer pid s).activePlayers = none := by
    simp [unregisterPlayer, aget_adel_self]
  refine ⟨?_, hnone, ?_, ?_, ?_, ?_, ?_, ?_, ?_⟩
  · intro c _ hcomp
    constructor
    · unfold proximityStep
      rw [if_pos hcomp]
    · unfold syncTouchStep
      rw [if_neg]
      simp [hcomp]
  · simp [unregisterPlayer, aget_adel_self]
  · intro c2 hc2
    simp only [unregisterPlayer, List.mem_map] at hc2
    obtain ⟨c, _, rfl⟩ := hc2
    simp [List.mem_filter]
  · intro c hc
    refine ⟨{ c with participants := c.participants.filter (fun q => q ≠ pid) },
      ?_, rfl, rfl, rfl, rfl, rfl, rfl, rfl, rfl, rfl⟩
    simp only [unregisterPlayer]
    exact List.mem_map_of_mem _ hc
  · unfold onPlayerTouch
    rw [hnone]
  · unfold onPlayerTouchRelease
    rw [hnone]
  · unfold initiateEnergyRelay
    rw [hnone]
  · unfold initiateEnergyRelay
    rw [hnone]
    rcases aget other (unregisterPlayer pid s).activePlayers with _ | q <;> rfl

/-- Claim C6 witness: applying the theorem to a concrete state with a
completed challenge and then removing player `a`. -/
theorem claim6_witness :
    proximityStep
        [("a", { pos := (0, 0, 0), isTouching := false, touchTimestamp := none })] 7
        { id := "X", ctype := CollabChallengeType.synchronizedTouch,
          requiredPlayers := 2, participants := ["a", "b"], isActive := false,
          isCompleted := true, startTime := some 1, position := (0, 0, 0),
          proximityRadius := 5 } =
      { id := "X", ctype := CollabChallengeType.synchronizedTouch,
        requiredPlayers := 2, participants := ["a", "b"], isActive := false,
        isCompleted := true, startTime := some 1, position := (0, 0, 0),
        proximityRadius := 5 } ∧
    aget "a"
        (unregisterPlayer "a"
          { activePlayers :=
              [("a", { pos := (0, 0, 0), isTouching := false, touchTimestamp := none })]
            challenges :=
              [{ id := "X", ctype := CollabChallengeType.synchronizedTouch,
                 requiredPlayers := 2, participants := ["a", "b"], isActive := false,
                 isCompleted := true, startTime := some 1, position := (0, 0, 0),
                 proximityRadius := 5 }]
            playerTouches := [("a", 3)], relayChain := [],
            relayMultiplier := 1 }).playerTouches = none :=
  ⟨((claim6_terminal_and_removal
      { activePlayers :=
          [("a", { pos := (0, 0, 0), isTouching := false, touchTimestamp := none })]
        challenges :=
          [{ id := "X", ctype := CollabChallengeType.synchronizedTouch,
             requiredPlayers := 2, participants := ["a", "b"], isActive := false,
             isCompleted := true, startTime := some 1, position := (0, 0, 0),
             proximityRadius := 5 }]
        playerTouches := [("a", 3)], relayChain := [], relayMultiplier := 1 }
      "a" "b" 7).1 _ (by decide) rfl).1,
   (claim6_terminal_and_removal
      { activePlayers :=
          [("a", { pos := (0, 0, 0), isTouching := false, touchTimestamp := none })]
        challenges :=
          [{ id := "X", ctype := CollabChallengeType.synchronizedTouch,
             requiredPlayers := 2, participants := ["a", "b"], isActive := false,
             isCompleted := true, startTime := some 1, position := (0, 0, 0),
             proximityRadius := 5 }]
        playerTouches := [("a", 3)], relayChain := [], relayMultiplier := 1 }
      "a" "b" 7).2.2.1⟩

/-! ### Claim C7 — rotate angle-delta normalization -/

/-- Claim C7, amended. For baseline and current angles in `(-180, 180]` (the
codomain of `calculateAngle = atan2·180/π`), the normalized delta lies in
the CLOSED interval `[-180, 180]` — the boundary case
`current − baseline = -180` is reported as `-180`, not `+180`, so the
claim's half-open interval `(-180, 180]` is off at that single boundary —
a boundary-crossing pair such as 170° → −170° yields the small delta 20, and
an emitted Rotate always carries `|delta| > ROTATION_THRESHOLD` (5°). -/
theorem claim7_rotation_delta (b c : ℚ)
    (hb1 : -180 < b) (hb2 : b ≤ 180) (hc1 : -180 < c) (hc2 : c ≤ 180) :
    -180 ≤ normalizeAngleDelta (c - b) ∧ normalizeAngleDelta (c - b) ≤ 180 ∧
    ∀ d, rotationGestureDelta b c = some d →
      d = normalizeAngleDelta (c - b) ∧ ROTATION_THRESHOLD < |d| := by
  have hbounds : -180 ≤ normalizeAngleDelta (c - b) ∧
      normalizeAngleDelta (c - b) ≤ 180 := by
    simp only [normalizeAngleDelta]
    split_ifs with h1 h2 h3 <;> constructor <;> linarith
  refine ⟨hbounds.1, hbounds.2, ?_⟩
  intro d hd
  simp only [rotationGestureDelta] at hd
  split_ifs at hd with hthr
  exact ⟨(Option.some_inj.mp hd).symm, (Option.some_inj.mp hd) ▸ hthr⟩

/-- Claim C7 counterexample. With baseline angle 180° (e.g. `atan2(0, -1)`,
two contacts horizontally aligned) and current angle 0°, the raw delta is
−180: neither normalization branch fires, a Rotate is emitted
(|−180| > 5), and its delta −180 lies outside the claimed half-open
interval `(-180, 180]`. -/
theorem claim7_counterexample :
    rotationGestureDelta 180 0 = some (-180) ∧
    normalizeAngleDelta (0 - 180) = -180 ∧
    ¬ (-180 < normalizeAngleDelta (0 - 180)) := by
  refine ⟨?_, ?_, ?_⟩ <;>
    norm_num [rotationGestureDelta, normalizeAngleDelta, ROTATION_THRESHOLD]

/-- Claim C7 witness: the amended theorem applied to the boundary-crossing
pair 170° → −170°, whose emitted delta is the small value 20. -/
theorem claim7_witness :
    rotationGestureDelta 170 (-170) = some 20 ∧
    (20 : ℚ) = normalizeAngleDelta ((-170) - 170) ∧
    ROTATION_THRESHOLD < |(20 : ℚ)| :=
  ⟨by norm_num [rotationGestureDelta, normalizeAngleDelta, ROTATION_THRESHOLD],
   ((claim7_rotation_delta 170 (-170) (by norm_num) (by norm_num) (by norm_num)
      (by norm_num)).2.2 20
      (by norm_num [rotationGestureDelta, normalizeAngleDelta, ROTATION_THRESHOLD])).1,
   ((claim7_rotation_delta 170 (-170) (by norm_num) (by norm_num) (by norm_num)
      (by norm_num)).2.2 20
      (by norm_num [rotationGestureDelta, normalizeAngleDelta, ROTATION_THRESHOLD])).2⟩

/-! ### Claim C8 — duplicate envelope delivery -/

/-- Claim C8, amended. The bus performs no sender+timestamp deduplication:
`receiveEvent` filters only self-originated envelopes, so a duplicate of a
remote envelope is enqueued (and hence dispatched to consumers) a second
time, and re-processing a relay hand-off through the stateful consumer
double-counts — re-delivering the same hand-off (same local processing time
`now ≠ 0`) classifies it Perfect against its own first delivery
(`Δ = 0 < PERFECT_TIMING_THRESHOLD`) and raises the multiplier by a further
0.5, so the consumer state after the duplicate differs from the state after
single delivery. -/
theorem claim8_no_dedup (localId : String) (pending : List NetworkEvent)
    (e e2 : NetworkEvent) (s : CollabState) (fromId toId : String) (now : Nat)
    (pf pt : Player) (hs : e.senderId ≠ localId) (hself : e2.senderId = localId)
    (hf : aget fromId s.activePlayers = some pf)
    (ht : aget toId s.activePlayers = some pt) (hnz : now ≠ 0) :
    receiveEvent localId (receiveEvent localId pending e) e = pending ++ [e, e] ∧
    receiveEvent localId pending e2 = pending ∧
    (initiateEnergyRelay fromId toId now
        (initiateEnergyRelay fromId toId now s)).relayMultiplier =
      (initiateEnergyRelay fromId toId now s).relayMultiplier + 1 / 2 := by
  refine ⟨?_, ?_, ?_⟩
  · simp [receiveEvent, hs]
  · simp [receiveEvent, hself]
  · have hstep : initiateEnergyRelay fromId toId now s =
        { s with
          relayChain := s.relayChain ++ [toId]
          playerTouches := aset toId now s.playerTouches
          relayMultiplier :=
            match relayTiming s.relayChain s.playerTouches now with
            | RelayTiming.perfect => s.relayMultiplier + 1 / 2
            | RelayTiming.good => s.relayMultiplier
            | RelayTiming.miss => 1 } := by
      simp [initiateEnergyRelay, hf, ht]
    have htiming : relayTiming (s.relayChain ++ [toId])
        (aset toId now s.playerTouches) now = RelayTiming.perfect := by
      have hlast : (s.relayChain ++ [toId]).getLast? = some toId :=
        List.getLast?_concat _
      have hget := aget_aset_self toId now s.playerTouches
      simp [relayTiming, hlast, hget, hnz, PERFECT_TIMING_THRESHOLD]
    rw [hstep]
    simp [initiateEnergyRelay, hf, ht, htiming]

/-- Claim C8 counterexample. Concrete duplicate delivery: the same remote
envelope is enqueued twice by `receiveEvent`, and processing the same relay
hand-off `a → b` (local time 1000) twice leaves chain `["b", "b"]` and
multiplier 1.5, whereas single delivery leaves chain `["b"]` and
multiplier 1 — the duplicated state differs from the singly-delivered one,
so duplicate delivery double-counts. -/
theorem claim8_counterexample :
    receiveEvent "L"
        (receiveEvent "L" [] { etype := "touch_event", senderId := "A", timestamp := 1000 })
        { etype := "touch_event", senderId := "A", timestamp := 1000 } =
      [{ etype := "touch_event", senderId := "A", timestamp := 1000 },
       { etype := "touch_event", senderId := "A", timestamp := 1000 }] ∧
    (initiateEnergyRelay "a" "b" 1000
        (initiateEnergyRelay "a" "b" 1000
          { activePlayers :=
              [("a", { pos := (0, 0, 0), isTouching := false, touchTimestamp := none }),
               ("b", { pos := (0, 0, 0), isTouching := false, touchTimestamp := none })]
            challenges := [], playerTouches := [], relayChain := [],
            relayMultiplier := 1 })).relayChain = ["b", "b"] ∧
    (initiateEnergyRelay "a" "b" 1000
        { activePlayers :=
            [("a", { pos := (0, 0, 0), isTouching := false, touchTimestamp := none }),
             ("b", { pos := (0, 0, 0), isTouching := false, touchTimestamp := none })]
          challenges := [], playerTouches := [], relayChain := [],
          relayMultiplier := 1 }).relayChain = ["b"] ∧
    (initiateEnergyRelay "a" "b" 1000
        (initiateEnergyRelay "a" "b" 1000
          { activePlayers :=
              [("a", { pos := (0, 0, 0), isTouching := false, touchTimestamp := none }),
               ("b", { pos := (0, 0, 0), isTouching := false, touchTimestamp := none })]
            challenges := [], playerTouches := [], relayChain := [],
            relayMultiplier := 1 })).relayMultiplier = 3 / 2 ∧
    (initiateEnergyRelay "a" "b" 1000
        { activePlayers :=
            [("a", { pos := (0, 0, 0), isTouching := false, touchTimestamp := none }),
             ("b", { pos := (0, 0, 0), isTouching := false, touchTimestamp := none })]
          challenges := [], playerTouches := [], relayChain := [],
          relayMultiplier := 1 }).relayMultiplier = 1 := by
  refine ⟨by decide, by decide, by decide, ?_, ?_⟩ <;>
    norm_num [initiateEnergyRelay, relayTiming, aget, aset, PERFECT_TIMING_THRESHOLD]

/-- Claim C8 witness: the amended theorem applied to a concrete remote
envelope and a concrete duplicated hand-off. -/
theorem claim8_witness :
    receiveEvent "L"
        (receiveEvent "L" [] { etype := "relay", senderId := "R", timestamp := 77 })
        { etype := "relay", senderId := "R", timestamp := 77 } =
      [{ etype := "relay", senderId := "R", timestamp := 77 },
       { etype := "relay", senderId := "R", timestamp := 77 }] :=
  (claim8_no_dedup "L" [] { etype := "relay", senderId := "R", timestamp := 77 }
      { etype := "x", senderId := "L", timestamp := 0 }
      { activePlayers :=
          [("a", { pos := (0, 0, 0), isTouching := false, touchTimestamp := none }),
           ("b", { pos := (0, 0, 0), isTouching := false, touchTimestamp := none })]
        challenges := [], playerTouches := [], relayChain := [],
        relayMultiplier := 1 }
      "a" "b" 77
      { pos := (0, 0, 0), isTouching := false, touchTimestamp := none }
      { pos := (0, 0, 0), isTouching := false, touchTimestamp := none }
      (by decide) rfl (by decide) (by decide) (by decide)).1

/-! ### Claim C9 — gesture callback dispatch -/

theorem emitGestureRun_all_ok (cbs : List Cb)
    (hok : ∀ x ∈ cbs, x.throws = false) :
    emitGestureRun cbs = (cbs.map Cb.name, false) := by
  induction cbs with
  | nil => rfl
  | cons c rest ih =>
      have hc : c.throws = false := hok c (List.mem_cons_self c rest)
      have hr := ih (fun x hx => hok x (List.mem_cons_of_mem c hx))
      simp [emitGestureRun, hc, hr]

theorem emitGestureRun_stops_at_throw (pre post : List Cb) (tcb : Cb)
    (hpre : ∀ x ∈ pre, x.throws = false) (htc : tcb.throws = true) :
    emitGestureRun (pre ++ tcb :: post) = (pre.map Cb.name ++ [tcb.name], true) := by
  induction pre with
  | nil => simp [emitGestureRun, htc]
  | cons c rest ih =>
      have hc : c.throws = false := hpre c (List.mem_cons_self c rest)
      have hr := ih (fun x hx => hpre x (List.mem_cons_of_mem c hx))
      simp [emitGestureRun, hc, hr]

/-- Claim C9, amended. `on(gestureType, callback)` appends to the per-type
list, and `emitGesture` invokes the callbacks in that registration order —
but a callback that throws DOES prevent the remaining callbacks for the
gesture from running: the plain `callbacks.forEach(cb => cb(event))` has no
exception isolation, so dispatch stops at the first throwing callback. (The
claim's isolation guarantee does not hold.) -/
theorem claim9_dispatch_order (m : List (String × List Cb)) (t : String)
    (c : Cb) (cbs pre post : List Cb) (tcb : Cb)
    (hok : ∀ x ∈ cbs, x.throws = false)
    (hpre : ∀ x ∈ pre, x.throws = false) (htc : tcb.throws = true) :
    aget t (onRegister m t c) = some ((aget t m).getD [] ++ [c]) ∧
    emitGestureRun cbs = (cbs.map Cb.name, false) ∧
    emitGestureRun (pre ++ tcb :: post) =
      (pre.map Cb.name ++ [tcb.name], true) := by
  refine ⟨?_, emitGestureRun_all_ok cbs hok,
    emitGestureRun_stops_at_throw pre post tcb hpre htc⟩
  unfold onRegister
  rcases hm : aget t m with _ | l <;> simp [hm, aget_aset_self]

/-- Claim C9 counterexample. Three callbacks registered in order `a`, `b`,
`c` where `b` throws: dispatch invokes `a` then `b` and stops — `c` is never
invoked, refuting the claim that a throwing callback does not prevent the
remaining callbacks from running. -/
theorem claim9_counterexample :
    emitGestureRun
        [{ name := "a", throws := false }, { name := "b", throws := true },
         { name := "c", throws := false }] = (["a", "b"], true) ∧
    "c" ∉ (emitGestureRun
        [{ name := "a", throws := false }, { name := "b", throws := true },
         { name := "c", throws := false }]).1 := by
  exact ⟨by decide, by decide⟩

/-- Claim C9 witness: the amended theorem applied to a concrete registry and
a concrete throwing run. -/
theorem claim9_witness :
    aget "tap" (onRegister [] "tap" { name := "a", throws := false }) =
      some [{ name := "a", throws := false }] ∧
    emitGestureRun
        [{ name := "a", throws := false }, { name := "b", throws := true }] =
      (["a", "b"], true) :=
  ⟨(claim9_dispatch_order [] "tap" { name := "a", throws := false } []
      [{ name := "a", throws := false }] [] { name := "b", throws := true }
      (by decide) (by decide) rfl).1,
   (claim9_dispatch_order [] "tap" { name := "a", throws := false } []
      [{ name := "a", throws := false }] [] { name := "b", throws := true }
      (by decide) (by decide) rfl).2.2⟩

/-! ### Claim C10 — relay hand-offs write the shared touch-timestamp map -/

/-- Claim C10, confirmed. A hand-off between two registered players writes
the hand-off timestamp into the recipient's entry of `playerTouches` — the
very map the synchronized-touch check filters on and the map consulted for
the next hand-off's Δ reference: afterwards the recipient is the last chain
member, any challenge listing the recipient among its participants counts
them as a touching player (even if they never touched), and the next
hand-off's classification is computed from Δ against the stored stamp. -/
theorem claim10_relay_writes_touch_map (s : CollabState) (fromId toId : String)
    (now now2 : Nat) (pf pt : Player)
    (hf : aget fromId s.activePlayers = some pf)
    (ht : aget toId s.activePlayers = some pt) (hnz : now ≠ 0) :
    aget toId (initiateEnergyRelay fromId toId now s).playerTouches = some now ∧
    (initiateEnergyRelay fromId toId now s).relayChain.getLast? = some toId ∧
    (∀ c : CollabChallenge, toId ∈ c.participants →
      toId ∈ touchingParticipants
        (initiateEnergyRelay fromId toId now s).playerTouches c) ∧
    relayTiming (initiateEnergyRelay fromId toId now s).relayChain
        (initiateEnergyRelay fromId toId now s).playerTouches now2 =
      (if (now2 : ℤ) - (now : ℤ) < PERFECT_TIMING_THRESHOLD then RelayTiming.perfect
       else if (now2 : ℤ) - (now : ℤ) < GOOD_TIMING_THRESHOLD then RelayTiming.good
       else RelayTiming.miss) := by
  have htouch : aget toId (initiateEnergyRelay fromId toId now s).playerTouches =
      some now := by
    simp [initiateEnergyRelay, hf, ht, aget_aset_self]
  have hchain : (initiateEnergyRelay fromId toId now s).relayChain =
      s.relayChain ++ [toId] := by
    simp [initiateEnergyRelay, hf, ht]
  refine ⟨htouch, ?_, ?_, ?_⟩
  · rw [hchain]
    exact List.getLast?_concat _
  · intro c hc
    unfold touchingParticipants
    rw [List.mem_filter]
    exact ⟨hc, by simp [htouch]⟩
  · rw [hchain]
    have hlast : (s.relayChain ++ [toId]).getLast? = some toId :=
      List.getLast?_concat _
    simp [relayTiming, hlast, htouch, hchain, hnz]

/-- Claim C10 witness: player `b` has no touch entry at all, yet after the
hand-off `a → b` at t=50 they count as a touching participant of a challenge
listing them. -/
theorem claim10_witness :
    "b" ∈ touchingParticipants
        (initiateEnergyRelay "a" "b" 50
          { activePlayers :=
              [("a", { pos := (0, 0, 0), isTouching := false, touchTimestamp := none }),
               ("b", { pos := (0, 0, 0), isTouching := false, touchTimestamp := none })]
            challenges := [], playerTouches := [], relayChain := [],
            relayMultiplier := 1 }).playerTouches
        { id := "X", ctype := CollabChallengeType.synchronizedTouch,
          requiredPlayers := 2, participants := ["a", "b"], isActive := true,
          isCompleted := false, startTime := none, position := (0, 0, 0),
          proximityRadius := 5 } :=
  (claim10_relay_writes_touch_map
      { activePlayers :=
          [("a", { pos := (0, 0, 0), isTouching := false, touchTimestamp := none }),
           ("b", { pos := (0, 0, 0), isTouching := false, touchTimestamp := none })]
        challenges := [], playerTouches := [], relayChain := [],
        relayMultiplier := 1 }
      "a" "b" 50 60
      { pos := (0, 0, 0), isTouching := false, touchTimestamp := none }
      { pos := (0, 0, 0), isTouching := false, touchTimestamp := none }
      (by decide) (by decide) (by decide)).2.2.1
    { id := "X", ctype := CollabChallengeType.synchronizedTouch,
      requiredPlayers := 2, participants := ["a", "b"], isActive := true,
      isCompleted := false, startTime := none, position := (0, 0, 0),
      proximityRadius := 5 }
    (by decide)

end PortalSync
